import Mathlib

/-!
Verification of the Chromecast communication module
(`modules/stream_out/chromecast/chromecast_communication.cpp`).

The module is embedded shallowly:

* `CastMessage` mirrors the protobuf `castchannel::CastMessage` envelope that
  `buildMessage` populates (protocol version, namespace, source/destination
  identifiers, payload type, and exactly one payload field).
* `serialize` models the protobuf wire encoding of the envelope (library code
  that is not part of the repository's sources); `frameOf` models the bytes
  produced by `sendMessage`: a 4-byte big-endian length prefix (`SetDWBE`)
  followed by the serialized envelope.
* Strings are modelled as their character sequences; `strBytes` maps a string
  to its byte sequence via code points, which is exact for the ASCII data the
  protocol uses.
* The mutable members `m_receiver_requestId` / `m_requestId` become the
  explicit state `CCState`; each `msg*` builder is a function from the state
  to a new state plus the emitted envelope.  C `assert`s are modelled as
  `Except.error` (an asserting build aborts before emitting anything).
* The `receive` loop is modelled as a function over an explicit trace of
  transport events (data delivered / would-block with a poll outcome /
  hard error), mirroring the `readv` + `vlc_poll_i11e` loop line by line.
-/

/-- Payload type of a cast envelope (`castchannel::CastMessage_PayloadType`). -/
inductive PayloadType where
  | STRING
  | BINARY
deriving DecidableEq, Repr

/-- Modelled from the spec: the protobuf `CastMessage` envelope (generated
library code, not in `src/`): protocol version, namespace, addressing, payload
kind and exactly one payload representation.  `buildMessage` populates it. -/
structure CastMessage where
  protocol_version : Nat
  source_id : String
  destination_id : String
  namespace_ : String
  payload_type : PayloadType
  payload_utf8 : Option String
  payload_binary : Option String
deriving DecidableEq, Repr

/-- Protocol version constant `CastMessage_ProtocolVersion_CASTV2_1_0`. -/
def CASTV2_1_0 : Nat := 0

/-- Modelled from the spec: namespace constant from `chromecast_common.h`
(not in `src/`); the heartbeat namespace string, as spelled out in §8. -/
def NAMESPACE_HEARTBEAT : String := "urn:x-cast:com.google.cast.tp.heartbeat"

/-- Modelled from the spec: connection namespace constant (not in `src/`). -/
def NAMESPACE_CONNECTION : String := "urn:x-cast:com.google.cast.tp.connection"

/-- Modelled from the spec: receiver-control namespace constant (not in `src/`). -/
def NAMESPACE_RECEIVER : String := "urn:x-cast:com.google.cast.receiver"

/-- Modelled from the spec: media-player namespace constant (not in `src/`). -/
def NAMESPACE_MEDIA : String := "urn:x-cast:com.google.cast.media"

/-- Modelled from the spec: the fixed well-known receiver destination used for
device-auth, heartbeat and receiver-control messages (not in `src/`). -/
def DEFAULT_CHOMECAST_RECEIVER : String := "receiver-0"

/-- Modelled from the spec: the fixed application identifier used by
`msgReceiverLaunchApp` (constant from the headers, not in `src/`). -/
def APP_ID : String := "CC1AD845"

/-- Length of the frame header (`PACKET_HEADER_LEN`): 4 bytes. -/
def PACKET_HEADER_LEN : Nat := 4

/-- Byte sequence of a string: one code point per byte, exact for ASCII. -/
def strBytes (s : String) : List Nat := s.data.map Char.toNat

/-- Little helper for `varint`: fuel-indexed base-128 digit expansion. -/
def varintAux : Nat → Nat → List Nat
  | 0, n => [n % 128]
  | fuel + 1, n => if n < 128 then [n] else (n % 128 + 128) :: varintAux fuel (n / 128)

/-- Modelled from the spec: protobuf varint encoding (library code, not in
`src/`); low 7 bits first, continuation bit on all but the last byte. -/
def varint (n : Nat) : List Nat := varintAux n n

/-- Modelled from the spec: a protobuf varint-typed field (wire type 0). -/
def protoVarint (fieldNum v : Nat) : List Nat := fieldNum * 8 :: varint v

/-- Modelled from the spec: a protobuf length-delimited field (wire type 2). -/
def protoString (fieldNum : Nat) (s : String) : List Nat :=
  (fieldNum * 8 + 2) :: (varint (strBytes s).length ++ strBytes s)

/-- Numeric value of the payload-type enum on the wire. -/
def payloadTypeVal : PayloadType → Nat
  | .STRING => 0
  | .BINARY => 1

/-- Modelled from the spec: the protobuf serialization of a `CastMessage`
(`SerializeWithCachedSizesToArray`, library code not in `src/`): the required
fields 1-5 in field order followed by whichever payload field is set. -/
def serialize (msg : CastMessage) : List Nat :=
  protoVarint 1 msg.protocol_version
  ++ protoString 2 msg.source_id
  ++ protoString 3 msg.destination_id
  ++ protoString 4 msg.namespace_
  ++ protoVarint 5 (payloadTypeVal msg.payload_type)
  ++ (match msg.payload_utf8 with | some p => protoString 6 p | none => [])
  ++ (match msg.payload_binary with | some p => protoString 7 p | none => [])

/-- Modelled from the spec: `SetDWBE` (VLC byte-order helper, not in `src/`):
store a 32-bit value big-endian. -/
def SetDWBE (n : Nat) : List Nat :=
  [n / 2 ^ 24 % 256, n / 2 ^ 16 % 256, n / 2 ^ 8 % 256, n % 256]

/-- Value of a big-endian byte sequence (used to read back the prefix). -/
def GetDWBE (l : List Nat) : Nat := l.foldl (fun a b => a * 256 + b) 0

/-- Wire bytes emitted by `sendMessage` for an envelope: 4-byte big-endian
length prefix followed by the serialized envelope body (lines 399-416). -/
def frameOf (msg : CastMessage) : List Nat :=
  SetDWBE (serialize msg).length ++ serialize msg

/-- VLC success code (from the headers, not in `src/`). -/
def VLC_SUCCESS : Int := 0

/-- VLC generic failure code (from the headers, not in `src/`). -/
def VLC_EGENERIC : Int := -1

/-- VLC allocation failure code (from the headers, not in `src/`). -/
def VLC_ENOMEM : Int := -2

/-- Result of `sendMessage` (lines 399-421): the transport's write result is a
parameter (`vlc_tls_Write` is an external collaborator).  Success exactly when
the write consumed the whole frame, header included; otherwise the generic
failure code.  `allocOk = false` models the `new(std::nothrow)` failure path,
which returns `VLC_ENOMEM` before anything is written. -/
def sendMessage (msg : CastMessage) (allocOk : Bool) (writeRet : Int) : Int :=
  if allocOk = false then VLC_ENOMEM
  else if writeRet = (PACKET_HEADER_LEN : Int) + ((serialize msg).length : Int) then VLC_SUCCESS
  else VLC_EGENERIC

/-- `buildMessage` (lines 91-109): populate the envelope; the payload string
goes into `payload_utf8` for `STRING` and into `payload_binary` otherwise. -/
def buildMessage (namespace_ payload destinationId : String)
    (payloadType : PayloadType := PayloadType.STRING) : CastMessage :=
  { protocol_version := CASTV2_1_0
    source_id := "sender-vlc"
    destination_id := destinationId
    namespace_ := namespace_
    payload_type := payloadType
    payload_utf8 := if payloadType = PayloadType.STRING then some payload else none
    payload_binary := if payloadType = PayloadType.STRING then none else some payload }

/-- Inverse of `strBytes` on ASCII data. -/
def stringOfBytes (bs : List Nat) : String := String.mk (bs.map Char.ofNat)

/-- Modelled from the spec: protobuf varint decoding. -/
def parseVarint : List Nat → Option (Nat × List Nat)
  | [] => none
  | b :: bs =>
    if b < 128 then some (b, bs)
    else match parseVarint bs with
      | some (n, rest) => some (b % 128 + n * 128, rest)
      | none => none

/-- Split off the first `n` bytes if available. -/
def splitBytes (n : Nat) (bs : List Nat) : Option (List Nat × List Nat) :=
  if n ≤ bs.length then some (bs.take n, bs.drop n) else none

/-- Modelled from the spec: decode one varint-typed protobuf field. -/
def parseVarintField (fieldNum : Nat) : List Nat → Option (Nat × List Nat)
  | b :: bs => if b = fieldNum * 8 then parseVarint bs else none
  | [] => none

/-- Modelled from the spec: decode one length-delimited protobuf field. -/
def parseStringField (fieldNum : Nat) : List Nat → Option (String × List Nat)
  | b :: bs =>
    if b = fieldNum * 8 + 2 then
      match parseVarint bs with
      | some (len, rest) =>
        match splitBytes len rest with
        | some (chunk, rest2) => some (stringOfBytes chunk, rest2)
        | none => none
      | none => none
    else none
  | [] => none

/-- Run an optional-field decoder: on failure consume nothing. -/
def tryOpt {α : Type} (p : List Nat → Option (α × List Nat)) (bs : List Nat) :
    Option α × List Nat :=
  match p bs with
  | some (a, rest) => (some a, rest)
  | none => (none, bs)

/-- Modelled from the spec: decode a serialized `CastMessage` body back into
its envelope fields (the spec's `decode` direction of the frame codec). -/
def parseCastMessage (bs : List Nat) : Option CastMessage := do
  let (pv, bs) ← parseVarintField 1 bs
  let (src, bs) ← parseStringField 2 bs
  let (dst, bs) ← parseStringField 3 bs
  let (ns, bs) ← parseStringField 4 bs
  let (ptv, bs) ← parseVarintField 5 bs
  let pt ← match ptv with
    | 0 => some PayloadType.STRING
    | 1 => some PayloadType.BINARY
    | _ => none
  let (pu, bs) := tryOpt (parseStringField 6) bs
  let (pb, bs) := tryOpt (parseStringField 7) bs
  if bs = [] then
    some { protocol_version := pv, source_id := src, destination_id := dst,
           namespace_ := ns, payload_type := pt, payload_utf8 := pu,
           payload_binary := pb }
  else none

/-- The envelope of the spec's §8 example scenario (claim C2). -/
def c2Envelope : CastMessage :=
  { protocol_version := CASTV2_1_0
    source_id := "sender-x"
    destination_id := "receiver-0"
    namespace_ := NAMESPACE_HEARTBEAT
    payload_type := PayloadType.STRING
    payload_utf8 := some "\x7b\"type\":\"PING\"\x7d"
    payload_binary := none }

/-- Client state: the two per-scope request-id counters (`m_receiver_requestId`
and `m_requestId`, both initialized to 0, lines 42-43) and the local address
`m_serverIp` captured at construction (line 64). -/
structure CCState where
  serverIp : String
  receiver_requestId : Nat
  requestId : Nat
deriving DecidableEq, Repr

/-- State of a freshly constructed client: both counters are 0. -/
def initState (ip : String) : CCState :=
  { serverIp := ip, receiver_requestId := 0, requestId := 0 }

/-- Modelled from the spec: the host `ostream` formatting of the volume float
(`ss << f_volume`, line 372); the spec only requires "a plain decimal" and no
claim depends on the digits, so the exact rendering is abstracted. -/
def formatVolume (q : ℚ) : String := toString q.num ++ "/" ++ toString q.den

/-- `msgPing` (lines 183-187). -/
def msgPing : CastMessage :=
  buildMessage NAMESPACE_HEARTBEAT "\x7b\"type\":\"PING\"\x7d" DEFAULT_CHOMECAST_RECEIVER

/-- `msgPong` (lines 190-194). -/
def msgPong : CastMessage :=
  buildMessage NAMESPACE_HEARTBEAT "\x7b\"type\":\"PONG\"\x7d" DEFAULT_CHOMECAST_RECEIVER

/-- `msgConnect` (lines 196-200). -/
def msgConnect (destinationId : String) : CastMessage :=
  buildMessage NAMESPACE_CONNECTION "\x7b\"type\":\"CONNECT\"\x7d" destinationId

/-- `msgReceiverClose` (lines 202-206). -/
def msgReceiverClose (destinationId : String) : CastMessage :=
  buildMessage NAMESPACE_CONNECTION "\x7b\"type\":\"CLOSE\"\x7d" destinationId

/-- `msgReceiverGetStatus` (lines 208-215): allocates the next receiver-scope
request id (post-increment of `m_receiver_requestId`).  The second component
of the pair records the id embedded in the payload. -/
def msgReceiverGetStatus (s : CCState) : CCState × (CastMessage × Nat) :=
  ({ s with receiver_requestId := s.receiver_requestId + 1 },
   (buildMessage NAMESPACE_RECEIVER
      ("\x7b\"type\":\"GET_STATUS\",\"requestId\":" ++ toString s.receiver_requestId ++ "\x7d")
      DEFAULT_CHOMECAST_RECEIVER,
    s.receiver_requestId))

/-- `msgReceiverLaunchApp` (lines 217-225). -/
def msgReceiverLaunchApp (s : CCState) : CCState × (CastMessage × Nat) :=
  ({ s with receiver_requestId := s.receiver_requestId + 1 },
   (buildMessage NAMESPACE_RECEIVER
      ("\x7b\"type\":\"LAUNCH\",\"appId\":\"" ++ APP_ID ++ "\",\"requestId\":"
        ++ toString s.receiver_requestId ++ "\x7d")
      DEFAULT_CHOMECAST_RECEIVER,
    s.receiver_requestId))

/-- `pushMediaPlayerMessage` (lines 423-427): `assert(!destinationId.empty())`
is modelled as `Except.error` (the asserting build aborts, nothing is sent). -/
def pushMediaPlayerMessage (destinationId payload : String) : Except Unit CastMessage :=
  if destinationId = "" then Except.error ()
  else Except.ok (buildMessage NAMESPACE_MEDIA payload destinationId)

/-- `msgPlayerGetStatus` (lines 227-235). -/
def msgPlayerGetStatus (destinationId : String) (s : CCState) :
    Except Unit (CCState × (CastMessage × Nat)) := do
  let m ← pushMediaPlayerMessage destinationId
    ("\x7b\"type\":\"GET_STATUS\",\"requestId\":" ++ toString s.requestId ++ "\x7d")
  Except.ok ({ s with requestId := s.requestId + 1 }, (m, s.requestId))

/-- Does `p` start the string `s`?  Models `strncmp(s, p, strlen(p)) == 0`. -/
def strStartsWith (p s : String) : Bool := p.data.isPrefixOf s.data

/-- Metadata record consumed by `GetMedia` (`vlc_meta_t` with the accessors
`vlc_meta_Get` used at lines 253-270; fields absent in the table are `none`). -/
structure VlcMeta where
  title : Option String
  artworkURL : Option String
  artist : Option String
  album : Option String
  albumArtist : Option String
  trackNumber : Option String
  discNumber : Option String
  nowPlaying : Option String
  esNowPlaying : Option String
deriving DecidableEq, Repr

/-- Title resolution of `GetMedia` (lines 255, 266-271): the explicit title,
else "now playing", else "elementary-stream now playing". -/
def resolveTitle (m : VlcMeta) : Option String :=
  match m.title with
  | some t => some t
  | none =>
    match m.nowPlaying with
    | some t => some t
    | none => m.esNowPlaying

/-- Music-field fetch of `GetMedia` (lines 258-265): a music-only field is
looked up only when the MIME type is an audio type AND the *explicit* title
is present (`b_music && psz_title`, line 258). -/
def fetchedMusicField (b_music : Bool) (m : VlcMeta) (f : VlcMeta → Option String) :
    Option String :=
  if b_music && m.title.isSome then f m else none

/-- One optional music field rendered into the metadata JSON (lines 280-289). -/
def optMusicField (key : String) (v : Option String) : String :=
  match v with
  | none => ""
  | some x => ",\"" ++ key ++ "\":\"" ++ x ++ "\""

/-- The five music-only fields of the metadata block (lines 278-290),
emitted only under `if (b_music)`. -/
def musicFieldsPart (b_music : Bool) (m : VlcMeta) : String :=
  if b_music then
    optMusicField "artist" (fetchedMusicField b_music m VlcMeta.artist)
    ++ optMusicField "album" (fetchedMusicField b_music m VlcMeta.album)
    ++ optMusicField "albumArtist" (fetchedMusicField b_music m VlcMeta.albumArtist)
    ++ optMusicField "trackNumber" (fetchedMusicField b_music m VlcMeta.trackNumber)
    ++ optMusicField "discNumber" (fetchedMusicField b_music m VlcMeta.discNumber)
  else ""

/-- The artwork image entry (lines 292-293): only if the URL starts "http". -/
def imagesPart (m : VlcMeta) : String :=
  match m.artworkURL with
  | some aw =>
    if strStartsWith "http" aw then ",\"images\":[\x7b\"url\":\"" ++ aw ++ "\"\x7d]" else ""
  | none => ""

/-- The `"metadata"` block of `GetMedia` (lines 273-296): emitted only when a
title was resolved; `metadataType` is 3 for audio MIME types and 0 otherwise. -/
def metadataBlock (b_music : Bool) (m : VlcMeta) : String :=
  match resolveTitle m with
  | none => ""
  | some t =>
    "\"metadata\":\x7b \"metadataType\":" ++ (if b_music then "3" else "0")
    ++ ",\"title\":\"" ++ t ++ "\""
    ++ musicFieldsPart b_music m
    ++ imagesPart m
    ++ "\x7d,"

/-- `GetMedia` (lines 237-309): the media descriptor body of a LOAD command.
`b_music` is `strncmp(mime, "audio", 5) == 0`, i.e. MIME starts with "audio". -/
def GetMedia (serverIp : String) (i_port : Nat) (mime : String) (p_meta : Option VlcMeta) :
    String :=
  let b_music := strStartsWith "audio" mime
  (match p_meta with
   | none => ""
   | some m => metadataBlock b_music m)
  ++ "\"contentId\":\"" ++ ("http://" ++ serverIp ++ ":" ++ toString i_port ++ "/stream") ++ "\""
  ++ ",\"streamType\":\"LIVE\""
  ++ ",\"contentType\":\"" ++ mime ++ "\""

/-- `msgPlayerLoad` (lines 311-322). -/
def msgPlayerLoad (destinationId : String) (i_port : Nat) (mime : String)
    (p_meta : Option VlcMeta) (s : CCState) :
    Except Unit (CCState × (CastMessage × Nat)) := do
  let m ← pushMediaPlayerMessage destinationId
    ("\x7b\"type\":\"LOAD\",\"media\":\x7b" ++ GetMedia s.serverIp i_port mime p_meta
      ++ "\x7d,\"autoplay\":\"false\",\"requestId\":" ++ toString s.requestId ++ "\x7d")
  Except.ok ({ s with requestId := s.requestId + 1 }, (m, s.requestId))

/-- `msgPlayerPlay` (lines 324-335): `assert(mediaSessionId != 0)` modelled as
`Except.error`. -/
def msgPlayerPlay (destinationId : String) (mediaSessionId : Int) (s : CCState) :
    Except Unit (CCState × (CastMessage × Nat)) :=
  if mediaSessionId = 0 then Except.error () else do
    let m ← pushMediaPlayerMessage destinationId
      ("\x7b\"type\":\"PLAY\",\"mediaSessionId\":" ++ toString mediaSessionId
        ++ ",\"requestId\":" ++ toString s.requestId ++ "\x7d")
    Except.ok ({ s with requestId := s.requestId + 1 }, (m, s.requestId))

/-- `msgPlayerStop` (lines 337-348). -/
def msgPlayerStop (destinationId : String) (mediaSessionId : Int) (s : CCState) :
    Except Unit (CCState × (CastMessage × Nat)) :=
  if mediaSessionId = 0 then Except.error () else do
    let m ← pushMediaPlayerMessage destinationId
      ("\x7b\"type\":\"STOP\",\"mediaSessionId\":" ++ toString mediaSessionId
        ++ ",\"requestId\":" ++ toString s.requestId ++ "\x7d")
    Except.ok ({ s with requestId := s.requestId + 1 }, (m, s.requestId))

/-- `msgPlayerPause` (lines 350-361). -/
def msgPlayerPause (destinationId : String) (mediaSessionId : Int) (s : CCState) :
    Except Unit (CCState × (CastMessage × Nat)) :=
  if mediaSessionId = 0 then Except.error () else do
    let m ← pushMediaPlayerMessage destinationId
      ("\x7b\"type\":\"PAUSE\",\"mediaSessionId\":" ++ toString mediaSessionId
        ++ ",\"requestId\":" ++ toString s.requestId ++ "\x7d")
    Except.ok ({ s with requestId := s.requestId + 1 }, (m, s.requestId))

/-- `msgPlayerSetVolume` (lines 363-378): after the session-id assertion, an
out-of-range volume (`f_volume < 0.0 || f_volume > 1.0`) silently returns with
no message and the state untouched. -/
def msgPlayerSetVolume (destinationId : String) (mediaSessionId : Int)
    (f_volume : ℚ) (b_mute : Bool) (s : CCState) :
    Except Unit (CCState × Option (CastMessage × Nat)) :=
  if mediaSessionId = 0 then Except.error ()
  else if f_volume < 0 ∨ f_volume > 1 then Except.ok (s, none)
  else do
    let m ← pushMediaPlayerMessage destinationId
      ("\x7b\"type\":\"SET_VOLUME\",\"volume\":\x7b\"level\":" ++ formatVolume f_volume
        ++ ",\"muted\":" ++ (if b_mute then "true" else "false")
        ++ "\x7d,\"mediaSessionId\":" ++ toString mediaSessionId
        ++ ",\"requestId\":" ++ toString s.requestId ++ "\x7d")
    Except.ok ({ s with requestId := s.requestId + 1 }, some (m, s.requestId))

/-- `msgPlayerSeek` (lines 380-392). -/
def msgPlayerSeek (destinationId : String) (mediaSessionId : Int)
    (currentTime : String) (s : CCState) :
    Except Unit (CCState × (CastMessage × Nat)) :=
  if mediaSessionId = 0 then Except.error () else do
    let m ← pushMediaPlayerMessage destinationId
      ("\x7b\"type\":\"SEEK\",\"currentTime\":" ++ currentTime
        ++ ",\"mediaSessionId\":" ++ toString mediaSessionId
        ++ ",\"requestId\":" ++ toString s.requestId ++ "\x7d")
    Except.ok ({ s with requestId := s.requestId + 1 }, (m, s.requestId))

/-- One outbound command carrying a request id, with its caller arguments
(the command builders of lines 208-392). -/
inductive Cmd where
  | receiverGetStatus
  | receiverLaunchApp
  | playerGetStatus (dest : String)
  | playerLoad (dest : String) (port : Nat) (mime : String) (meta : Option VlcMeta)
  | playerPlay (dest : String) (sid : Int)
  | playerStop (dest : String) (sid : Int)
  | playerPause (dest : String) (sid : Int)
  | playerSetVolume (dest : String) (sid : Int) (vol : ℚ) (mute : Bool)
  | playerSeek (dest : String) (sid : Int) (t : String)

/-- A command's arguments satisfy every precondition under which the source
emits a message: non-empty destination, non-zero media session id, and (for
SET_VOLUME) a volume inside the closed range. -/
def Cmd.valid : Cmd → Bool
  | .receiverGetStatus | .receiverLaunchApp => true
  | .playerGetStatus dest => dest != ""
  | .playerLoad dest _ _ _ => dest != ""
  | .playerPlay dest sid | .playerStop dest sid | .playerPause dest sid =>
    dest != "" && sid != 0
  | .playerSetVolume dest sid vol _ =>
    dest != "" && sid != 0 && decide (0 ≤ vol) && decide (vol ≤ 1)
  | .playerSeek dest sid _ => dest != "" && sid != 0

/-- Whether a command goes to the receiver-control scope. -/
def isReceiverCmd : Cmd → Bool
  | .receiverGetStatus | .receiverLaunchApp => true
  | _ => false

/-- Dispatch one command to the corresponding builder. -/
def runCmd (c : Cmd) (s : CCState) : Except Unit (CCState × Option (CastMessage × Nat)) :=
  match c with
  | .receiverGetStatus =>
    let r := msgReceiverGetStatus s
    Except.ok (r.1, some r.2)
  | .receiverLaunchApp =>
    let r := msgReceiverLaunchApp s
    Except.ok (r.1, some r.2)
  | .playerGetStatus d => (msgPlayerGetStatus d s).map (fun r => (r.1, some r.2))
  | .playerLoad d p mi me => (msgPlayerLoad d p mi me s).map (fun r => (r.1, some r.2))
  | .playerPlay d sid => (msgPlayerPlay d sid s).map (fun r => (r.1, some r.2))
  | .playerStop d sid => (msgPlayerStop d sid s).map (fun r => (r.1, some r.2))
  | .playerPause d sid => (msgPlayerPause d sid s).map (fun r => (r.1, some r.2))
  | .playerSetVolume d sid v mu => msgPlayerSetVolume d sid v mu s
  | .playerSeek d sid t => (msgPlayerSeek d sid t s).map (fun r => (r.1, some r.2))

/-- Run a sequence of commands, collecting every emitted envelope together
with the request id it carries. -/
def runCmds : List Cmd → CCState → Except Unit (CCState × List (CastMessage × Nat))
  | [], s => Except.ok (s, [])
  | c :: cs, s => do
    let (s1, em) ← runCmd c s
    let (s2, tr) ← runCmds cs s1
    Except.ok (s2, match em with | some e => e :: tr | none => tr)

/-- Request ids of the receiver-scope envelopes of a trace, in order. -/
def receiverIds (tr : List (CastMessage × Nat)) : List Nat :=
  (tr.filter (fun e => e.1.namespace_ == NAMESPACE_RECEIVER)).map (fun e => e.2)

/-- Request ids of the media-player-scope envelopes of a trace, in order. -/
def mediaIds (tr : List (CastMessage × Nat)) : List Nat :=
  (tr.filter (fun e => e.1.namespace_ == NAMESPACE_MEDIA)).map (fun e => e.2)

/-- Outcome of one `vlc_poll_i11e` call inside `receive` (line 147). -/
inductive PollEv where
  | timeout
  | ready
  | perr
deriving DecidableEq, Repr

/-- One iteration's transport event inside `receive`'s loop: `data n` is a
`readv` returning `n` (`n = 0` is the orderly close), `wouldBlock p` is a
`readv` failing with `EAGAIN` followed by a poll with outcome `p`, and `rerr`
is a `readv` failure with any other errno. -/
inductive ReadEv where
  | data (n : Nat)
  | wouldBlock (p : PollEv)
  | rerr
deriving DecidableEq, Repr

/-- Result of `receive`: `ok received timedOut` models a non-negative return
value together with the `*pb_timeout` flag; `fail` models the `-1` return. -/
inductive RecvResult where
  | ok (received : Nat) (timedOut : Bool)
  | fail
deriving DecidableEq, Repr

/-- The `do/while` loop of `receive` (lines 134-166) over an explicit event
trace; `size` is the remaining `i_size`, `acc` the accumulated `i_received`.
Running out of events, or a `readv` delivering more than was asked (the
`assert(i_size >= i_ret)` of line 160), leaves the behaviour undefined
(`none`). -/
def receiveLoop : Nat → Nat → List ReadEv → Option RecvResult
  | _, _, [] => none
  | size, acc, ev :: evs =>
    match ev with
    | .rerr => some RecvResult.fail
    | .wouldBlock PollEv.perr => some RecvResult.fail
    | .wouldBlock PollEv.timeout => some (RecvResult.ok acc true)
    | .wouldBlock PollEv.ready => receiveLoop size acc evs
    | .data n =>
      if n = 0 then some RecvResult.fail
      else if size < n then none
      else if size - n = 0 then some (RecvResult.ok (acc + n) false)
      else receiveLoop (size - n) (acc + n) evs

/-- `receive` (lines 119-167): read `i_size` bytes against an event trace,
starting with nothing accumulated. -/
def receive (i_size : Nat) (evs : List ReadEv) : Option RecvResult :=
  receiveLoop i_size 0 evs

/-- An event that keeps the loop going: a non-empty data delivery or a
would-block answered by readiness before the deadline. -/
def progressEv : ReadEv → Bool
  | .data n => n != 0
  | .wouldBlock PollEv.ready => true
  | _ => false

/-- Total number of bytes delivered by the data events of a trace. -/
def dataSum : List ReadEv → Nat
  | [] => 0
  | ReadEv.data n :: evs => n + dataSum evs
  | _ :: evs => dataSum evs

/-- Does `pat` occur as a contiguous run inside `l`? -/
def occursAux (pat : List Char) : List Char → Bool
  | [] => pat.isEmpty
  | a :: l => pat.isPrefixOf (a :: l) || occursAux pat l

/-- Substring test used to express that a JSON field was emitted. -/
def strOccurs (pat s : String) : Bool := occursAux pat.data s.data

/-- Metadata exhibiting the fallback-title case: no explicit title, a
"now playing" value, and an artist tag. -/
def cex8Meta : VlcMeta :=
  { title := none, artworkURL := none, artist := some "Artist", album := none,
    albumArtist := none, trackNumber := none, discNumber := none,
    nowPlaying := some "NP", esNowPlaying := none }

/-- Metadata with an explicit title and an artist tag (the spec's §8 media
descriptor example). -/
def m8w : VlcMeta :=
  { title := some "Song", artworkURL := none, artist := some "Artist", album := none,
    albumArtist := none, trackNumber := none, discNumber := none,
    nowPlaying := none, esNowPlaying := none }

/-- Concrete envelope used to instantiate the framing theorem. -/
def c1Msg : CastMessage :=
  buildMessage NAMESPACE_HEARTBEAT "\x7b\"type\":\"PING\"\x7d" DEFAULT_CHOMECAST_RECEIVER

/-- Concrete envelope used to instantiate the send-result theorem. -/
def c9Msg : CastMessage :=
  buildMessage NAMESPACE_CONNECTION "\x7b\"type\":\"CONNECT\"\x7d" DEFAULT_CHOMECAST_RECEIVER

/-- Concrete interleaving used to instantiate the request-id theorem:
receiver, media, media, receiver, media. -/
def c3Cmds : List Cmd :=
  [Cmd.receiverGetStatus, Cmd.playerGetStatus "d", Cmd.playerSetVolume "d" 1 1 false,
   Cmd.receiverLaunchApp, Cmd.playerPlay "d" 7]


theorem SetDWBE_length (n : Nat) : (SetDWBE n).length = 4 := rfl

theorem GetDWBE_SetDWBE (n : Nat) (h : n < 2 ^ 32) : GetDWBE (SetDWBE n) = n := by
  simp [GetDWBE, SetDWBE]
  omega

/-- C1: for every envelope sent, the emitted frame is a 4-byte big-endian
length prefix followed by the serialized envelope body, and the prefix value
(read back as a big-endian 32-bit integer) equals the byte-length of that
serialized body. -/
theorem sendMessage_frame_structure (msg : CastMessage)
    (h : (serialize msg).length < 2 ^ 32) :
    frameOf msg = SetDWBE (serialize msg).length ++ serialize msg
    ∧ (frameOf msg).take 4 = SetDWBE (serialize msg).length
    ∧ (frameOf msg).drop 4 = serialize msg
    ∧ GetDWBE ((frameOf msg).take 4) = (serialize msg).length := by
  have ht : (frameOf msg).take 4 = SetDWBE (serialize msg).length := by
    rw [frameOf, List.take_left' (SetDWBE_length _)]
  refine ⟨rfl, ht, ?_, ?_⟩
  · rw [frameOf, List.drop_left' (SetDWBE_length _)]
  · rw [ht, GetDWBE_SetDWBE _ h]

/-- Witness for C1: the framing theorem instantiated at a concrete PING
envelope. -/
theorem sendMessage_frame_structure_witness :
    (serialize c1Msg).length < 2 ^ 32
    ∧ (frameOf c1Msg = SetDWBE (serialize c1Msg).length ++ serialize c1Msg
       ∧ (frameOf c1Msg).take 4 = SetDWBE (serialize c1Msg).length
       ∧ (frameOf c1Msg).drop 4 = serialize c1Msg
       ∧ GetDWBE ((frameOf c1Msg).take 4) = (serialize c1Msg).length) :=
  ⟨by decide, sendMessage_frame_structure c1Msg (by decide)⟩

/-- C2 counterexample: for the §8 example envelope the frame's first 4 bytes
are the big-endian length of the *serialized envelope* (84), not of the JSON
payload string (15), so the claim as stated is false. -/
theorem c2_prefix_ne_payload_length :
    (frameOf c2Envelope).take 4 ≠ SetDWBE (strBytes "\x7b\"type\":\"PING\"\x7d").length := by
  decide

/-- C2 (amended): for the example envelope, the frame's first 4 bytes equal
the big-endian encoding of the serialized envelope body's byte length, and the
remaining bytes deserialize back to an envelope with the same namespace,
source, destination, payload kind and payload. -/
theorem c2_frame_roundtrip :
    (frameOf c2Envelope).take 4 = SetDWBE (serialize c2Envelope).length
    ∧ GetDWBE ((frameOf c2Envelope).take 4) = (serialize c2Envelope).length
    ∧ parseCastMessage ((frameOf c2Envelope).drop 4) = some c2Envelope := by
  decide

/-- C9: `sendMessage` succeeds exactly when the transport wrote the whole
frame (4-byte header plus serialized body); any short write or negative write
result yields the generic failure code. -/
theorem sendMessage_success_iff_full_write (msg : CastMessage) (writeRet : Int) :
    (frameOf msg).length = PACKET_HEADER_LEN + (serialize msg).length
    ∧ (sendMessage msg true writeRet = VLC_SUCCESS ↔ writeRet = ((frameOf msg).length : Int))
    ∧ (writeRet ≠ ((frameOf msg).length : Int) → sendMessage msg true writeRet = VLC_EGENERIC)
    ∧ VLC_EGENERIC ≠ VLC_SUCCESS := by
  have hlen : (frameOf msg).length = PACKET_HEADER_LEN + (serialize msg).length := by
    simp [frameOf, SetDWBE, PACKET_HEADER_LEN]
    omega
  have hcast : ((frameOf msg).length : Int)
      = (PACKET_HEADER_LEN : Int) + ((serialize msg).length : Int) := by
    rw [hlen]; push_cast; ring
  refine ⟨hlen, ?_, ?_, by decide⟩
  · rw [sendMessage, hcast]
    by_cases h : writeRet = (PACKET_HEADER_LEN : Int) + ((serialize msg).length : Int) <;>
      simp [h, VLC_SUCCESS, VLC_EGENERIC]
  · intro h
    rw [sendMessage]
    rw [hcast] at h
    simp [h, VLC_EGENERIC]

/-- Witness for C9: a full write of the concrete CONNECT frame succeeds and a
4-byte short write fails generically. -/
theorem sendMessage_success_iff_full_write_witness :
    sendMessage c9Msg true ((frameOf c9Msg).length : Int) = VLC_SUCCESS
    ∧ sendMessage c9Msg true 4 = VLC_EGENERIC :=
  ⟨(sendMessage_success_iff_full_write c9Msg _).2.1.mpr rfl,
   (sendMessage_success_iff_full_write c9Msg 4).2.2.1 (by decide)⟩

theorem prefixOf_ext (p l y : List Char) (h : p.isPrefixOf l = true) :
    p.isPrefixOf (l ++ y) = true := by
  rw [ List.isPrefixOf_iff_prefix] at h ⊢
  exact h.trans (List.prefix_append l y)

theorem occurs_of_prefixOf (p l : List Char) (h : p.isPrefixOf l = true) :
    occursAux p l = true := by
  cases l with
  | nil =>
    cases p with
    | nil => simp [occursAux]
    | cons a as => simp [List.isPrefixOf] at h
  | cons a l => simp [occursAux, h]

theorem occursAux_append_right (p x y : List Char) (h : occursAux p y = true) :
    occursAux p (x ++ y) = true := by
  induction x with
  | nil => simpa using h
  | cons a x ih => simp [occursAux, ih]

theorem occursAux_append_left (p x y : List Char) (h : occursAux p x = true) :
    occursAux p (x ++ y) = true := by
  induction x with
  | nil =>
    simp [occursAux] at h
    subst h
    cases y with
    | nil => simp [occursAux]
    | cons b bs => simp [occursAux, List.isPrefixOf]
  | cons a x ih =>
    simp only [occursAux, Bool.or_eq_true] at h
    rcases h with h | h
    · simp only [List.cons_append, occursAux, Bool.or_eq_true]
      exact Or.inl (prefixOf_ext _ _ _ h)
    · simp only [List.cons_append, occursAux, Bool.or_eq_true]
      exact Or.inr (ih h)

theorem strOccurs_append_left (p x y : String) (h : strOccurs p x = true) :
    strOccurs p (x ++ y) = true := by
  rw [strOccurs, String.data_append]
  exact occursAux_append_left _ _ _ h

theorem strOccurs_append_right (p x y : String) (h : strOccurs p y = true) :
    strOccurs p (x ++ y) = true := by
  rw [strOccurs, String.data_append]
  exact occursAux_append_right _ _ _ h

theorem strOccurs_head (p x y : String) (h : p.data.isPrefixOf x.data = true) :
    strOccurs p (x ++ y) = true := by
  rw [strOccurs, String.data_append]
  exact occurs_of_prefixOf _ _ (prefixOf_ext _ _ _ h)

/-- C5: PLAY, STOP and PAUSE with a media-session-id of 0 are rejected before
any message is built: the contract violation (the C `assert`) aborts the call
and no frame is emitted. -/
theorem player_zero_session_rejected (dest : String) (s : CCState) :
    msgPlayerPlay dest 0 s = Except.error ()
    ∧ msgPlayerStop dest 0 s = Except.error ()
    ∧ msgPlayerPause dest 0 s = Except.error () := by
  refine ⟨?_, ?_, ?_⟩ <;> rfl

/-- C4: with a non-zero session id and a non-empty destination, a volume in
the closed range [0, 1] produces exactly one SET_VOLUME media message (and
allocates a request id), while any volume outside that range is silently
dropped: no message, state unchanged. -/
theorem setVolume_range_policy (dest : String) (sid : Int) (vol : ℚ) (mute : Bool)
    (s : CCState) (hsid : sid ≠ 0) (hdest : dest ≠ "") :
    ((0 ≤ vol ∧ vol ≤ 1) → ∃ m : CastMessage,
        msgPlayerSetVolume dest sid vol mute s
          = Except.ok ({ s with requestId := s.requestId + 1 }, some (m, s.requestId))
        ∧ m.namespace_ = NAMESPACE_MEDIA
        ∧ m.destination_id = dest
        ∧ strOccurs "\x7b\"type\":\"SET_VOLUME\"" ((m.payload_utf8).getD "") = true)
    ∧ (¬(0 ≤ vol ∧ vol ≤ 1) →
        msgPlayerSetVolume dest sid vol mute s = Except.ok (s, none)) := by
  constructor
  · rintro ⟨h0, h1⟩
    have hrange : ¬(vol < 0 ∨ vol > 1) := by
      push_neg
      exact ⟨h0, h1⟩
    refine ⟨buildMessage NAMESPACE_MEDIA
      ("\x7b\"type\":\"SET_VOLUME\",\"volume\":\x7b\"level\":" ++ formatVolume vol
        ++ ",\"muted\":" ++ (if mute then "true" else "false")
        ++ "\x7d,\"mediaSessionId\":" ++ toString sid
        ++ ",\"requestId\":" ++ toString s.requestId ++ "\x7d") dest, ?_, rfl, rfl, ?_⟩
    · simp [msgPlayerSetVolume, hsid, hrange, pushMediaPlayerMessage, hdest, Bind.bind,
        Except.bind]
    · show strOccurs _ _ = true
      apply strOccurs_append_left
      apply strOccurs_append_left
      apply strOccurs_append_left
      apply strOccurs_append_left
      apply strOccurs_append_left
      apply strOccurs_append_left
      apply strOccurs_append_left
      apply strOccurs_head
      decide
  · intro h
    have hrange : vol < 0 ∨ vol > 1 := by
      by_cases hv : vol < 0
      · exact Or.inl hv
      · exact Or.inr (by
          rcases not_and_or.mp h with h0 | h1
          · exact absurd (not_lt.mp hv) h0
          · exact not_le.mp h1)
    simp [msgPlayerSetVolume, hsid, hrange]

/-- Witness for C4: the policy instantiated at the boundary volume 1 (kept)
and, via the second conjunct, at volume 2 (dropped). -/
theorem setVolume_range_policy_witness :
    ((1 : Int) ≠ 0 ∧ "d" ≠ "")
    ∧ (∃ m : CastMessage,
        msgPlayerSetVolume "d" 1 1 false (initState "ip")
          = Except.ok ({ initState "ip" with requestId := 1 }, some (m, 0))
        ∧ m.namespace_ = NAMESPACE_MEDIA
        ∧ m.destination_id = "d"
        ∧ strOccurs "\x7b\"type\":\"SET_VOLUME\"" ((m.payload_utf8).getD "") = true)
    ∧ msgPlayerSetVolume "d" 1 2 false (initState "ip") = Except.ok (initState "ip", none) :=
  ⟨⟨by decide, by decide⟩,
   (setVolume_range_policy "d" 1 1 false (initState "ip") (by decide) (by decide)).1
     (by constructor <;> norm_num),
   (setVolume_range_policy "d" 1 2 false (initState "ip") (by decide) (by decide)).2
     (by norm_num)⟩

/-- C10: a silently-dropped SET_VOLUME call (volume out of range) leaves the
whole client state unchanged — in particular the media request-id counter —
so the next accepted media-player command is issued with the very id the
dropped call would have used. -/
theorem setVolume_drop_no_state_change (dest dest2 : String) (sid : Int) (vol : ℚ)
    (mute : Bool) (s : CCState) (hsid : sid ≠ 0) (hvol : vol < 0 ∨ vol > 1) :
    msgPlayerSetVolume dest sid vol mute s = Except.ok (s, none)
    ∧ (dest2 ≠ "" → ∃ m : CastMessage,
        msgPlayerGetStatus dest2 s
          = Except.ok ({ s with requestId := s.requestId + 1 }, (m, s.requestId))) := by
  constructor
  · simp [msgPlayerSetVolume, hsid, hvol]
  · intro h2
    refine ⟨buildMessage NAMESPACE_MEDIA
      ("\x7b\"type\":\"GET_STATUS\",\"requestId\":" ++ toString s.requestId ++ "\x7d") dest2, ?_⟩
    simp [msgPlayerGetStatus, pushMediaPlayerMessage, h2, Bind.bind, Except.bind]

/-- Witness for C10: dropping volume 2 from the fresh state keeps both
counters at 0 and the next GET_STATUS uses request id 0. -/
theorem setVolume_drop_no_state_change_witness :
    msgPlayerSetVolume "d" 1 2 false (initState "ip") = Except.ok (initState "ip", none)
    ∧ ("d2" ≠ "" → ∃ m : CastMessage,
        msgPlayerGetStatus "d2" (initState "ip")
          = Except.ok ({ initState "ip" with requestId := 1 }, (m, 0))) :=
  setVolume_drop_no_state_change "d" "d2" 1 2 false (initState "ip") (by decide)
    (Or.inr (by norm_num))

theorem receiveLoop_timeout (evs : List ReadEv) : ∀ size acc : Nat,
    (∀ e ∈ evs, progressEv e = true) → dataSum evs < size →
    receiveLoop size acc (evs ++ [ReadEv.wouldBlock PollEv.timeout])
      = some (RecvResult.ok (acc + dataSum evs) true) := by
  induction evs with
  | nil =>
    intro size acc _ _
    simp [receiveLoop, dataSum]
  | cons e evs ih =>
    intro size acc h hlt
    have hp := h e (List.mem_cons_self e evs)
    have htail : ∀ x ∈ evs, progressEv x = true := fun x hx => h x (List.mem_cons_of_mem _ hx)
    cases e with
    | data n =>
      have hn : n ≠ 0 := by simpa [progressEv] using hp
      have hds : dataSum (ReadEv.data n :: evs) = n + dataSum evs := rfl
      rw [hds] at hlt
      have h1 : ¬ (size < n) := by omega
      have h2 : ¬ (size - n = 0) := by omega
      simp only [List.cons_append, receiveLoop, List.append_eq]
      rw [if_neg hn, if_neg h1, if_neg h2, ih (size - n) (acc + n) htail (by omega), hds]
      have hadd : acc + n + dataSum evs = acc + (n + dataSum evs) := by omega
      rw [hadd]
    | wouldBlock p =>
      cases p with
      | ready =>
        simp only [List.cons_append, receiveLoop, List.append_eq]
        rw [ih size acc htail (by simpa [dataSum] using hlt)]
        rfl
      | timeout => simp [progressEv] at hp
      | perr => simp [progressEv] at hp
    | rerr => simp [progressEv] at hp

theorem receiveLoop_close (evs : List ReadEv) : ∀ size acc : Nat,
    (∀ e ∈ evs, progressEv e = true) → dataSum evs < size →
    receiveLoop size acc (evs ++ [ReadEv.data 0]) = some RecvResult.fail := by
  induction evs with
  | nil =>
    intro size acc _ _
    simp [receiveLoop]
  | cons e evs ih =>
    intro size acc h hlt
    have hp := h e (List.mem_cons_self e evs)
    have htail : ∀ x ∈ evs, progressEv x = true := fun x hx => h x (List.mem_cons_of_mem _ hx)
    cases e with
    | data n =>
      have hn : n ≠ 0 := by simpa [progressEv] using hp
      have hds : dataSum (ReadEv.data n :: evs) = n + dataSum evs := rfl
      rw [hds] at hlt
      have h1 : ¬ (size < n) := by omega
      have h2 : ¬ (size - n = 0) := by omega
      simp only [List.cons_append, receiveLoop, List.append_eq]
      rw [if_neg hn, if_neg h1, if_neg h2, ih (size - n) (acc + n) htail (by omega)]
    | wouldBlock p =>
      cases p with
      | ready =>
        simp only [List.cons_append, receiveLoop, List.append_eq]
        exact ih size acc htail (by simpa [dataSum] using hlt)
      | timeout => simp [progressEv] at hp
      | perr => simp [progressEv] at hp
    | rerr => simp [progressEv] at hp

/-- C6: if the poll deadline elapses after a run of progress events delivering
fewer bytes than requested (including none at all), `receive` returns a
non-negative count — the bytes accumulated so far — with the timeout flag set. -/
theorem receive_timeout_report (size : Nat) (evs : List ReadEv)
    (h : ∀ e ∈ evs, progressEv e = true) (hlt : dataSum evs < size) :
    receive size (evs ++ [ReadEv.wouldBlock PollEv.timeout])
      = some (RecvResult.ok (dataSum evs) true) := by
  have hx := receiveLoop_timeout evs size 0 h hlt
  simpa [receive] using hx

/-- Witness for C6: an idle stream times out with 0 bytes, and a stream that
stalls after 2 of 4 bytes times out with the partial count 2. -/
theorem receive_timeout_report_witness :
    ((∀ e ∈ ([] : List ReadEv), progressEv e = true) ∧ dataSum [] < 4
      ∧ receive 4 ([] ++ [ReadEv.wouldBlock PollEv.timeout]) = some (RecvResult.ok 0 true))
    ∧ ((∀ e ∈ [ReadEv.data 2], progressEv e = true) ∧ dataSum [ReadEv.data 2] < 4
      ∧ receive 4 ([ReadEv.data 2] ++ [ReadEv.wouldBlock PollEv.timeout])
          = some (RecvResult.ok 2 true)) :=
  ⟨⟨by decide, by decide, receive_timeout_report 4 [] (by decide) (by decide)⟩,
   ⟨by decide, by decide, receive_timeout_report 4 [ReadEv.data 2] (by decide) (by decide)⟩⟩

/-- C7: an orderly close (`readv` returning 0) before the requested byte count
was accumulated makes `receive` return the hard error, which is neither a
timeout nor a partial success. -/
theorem receive_close_hard_error (size : Nat) (evs : List ReadEv)
    (h : ∀ e ∈ evs, progressEv e = true) (hlt : dataSum evs < size) :
    receive size (evs ++ [ReadEv.data 0]) = some RecvResult.fail
    ∧ ∀ n b, RecvResult.fail ≠ RecvResult.ok n b := by
  refine ⟨?_, by intro n b hc; cases hc⟩
  have hx := receiveLoop_close evs size 0 h hlt
  simpa [receive] using hx

/-- Witness for C7: a stream closing after delivering 2 of the 4 requested
bytes produces the hard error. -/
theorem receive_close_hard_error_witness :
    (∀ e ∈ [ReadEv.data 2], progressEv e = true) ∧ dataSum [ReadEv.data 2] < 4
    ∧ (receive 4 ([ReadEv.data 2] ++ [ReadEv.data 0]) = some RecvResult.fail
       ∧ ∀ n b, RecvResult.fail ≠ RecvResult.ok n b) :=
  ⟨by decide, by decide, receive_close_hard_error 4 [ReadEv.data 2] (by decide) (by decide)⟩

theorem runCmd_spec (c : Cmd) (s : CCState) (hv : c.valid = true) :
    (isReceiverCmd c = true →
      ∃ m : CastMessage, runCmd c s
          = Except.ok ({ s with receiver_requestId := s.receiver_requestId + 1 },
              some (m, s.receiver_requestId))
        ∧ m.namespace_ = NAMESPACE_RECEIVER)
    ∧ (isReceiverCmd c = false →
      ∃ m : CastMessage, runCmd c s
          = Except.ok ({ s with requestId := s.requestId + 1 }, some (m, s.requestId))
        ∧ m.namespace_ = NAMESPACE_MEDIA) := by
  cases c with
  | receiverGetStatus =>
    exact ⟨fun _ => ⟨_, rfl, rfl⟩, fun hc => by simp [isReceiverCmd] at hc⟩
  | receiverLaunchApp =>
    exact ⟨fun _ => ⟨_, rfl, rfl⟩, fun hc => by simp [isReceiverCmd] at hc⟩
  | playerGetStatus d =>
    have hd : d ≠ "" := by simpa [Cmd.valid] using hv
    refine ⟨fun hc => by simp [isReceiverCmd] at hc, fun _ => ?_⟩
    simp only [runCmd, msgPlayerGetStatus, pushMediaPlayerMessage, if_neg hd, Bind.bind,
      Except.bind, Except.map]
    exact ⟨_, rfl, rfl⟩
  | playerLoad d p mi me =>
    have hd : d ≠ "" := by simpa [Cmd.valid] using hv
    refine ⟨fun hc => by simp [isReceiverCmd] at hc, fun _ => ?_⟩
    simp only [runCmd, msgPlayerLoad, pushMediaPlayerMessage, if_neg hd, Bind.bind,
      Except.bind, Except.map]
    exact ⟨_, rfl, rfl⟩
  | playerPlay d sid =>
    have hd : d ≠ "" ∧ sid ≠ 0 := by simpa [Cmd.valid] using hv
    refine ⟨fun hc => by simp [isReceiverCmd] at hc, fun _ => ?_⟩
    simp only [runCmd, msgPlayerPlay, pushMediaPlayerMessage, if_neg hd.1, if_neg hd.2,
      Bind.bind, Except.bind, Except.map]
    exact ⟨_, rfl, rfl⟩
  | playerStop d sid =>
    have hd : d ≠ "" ∧ sid ≠ 0 := by simpa [Cmd.valid] using hv
    refine ⟨fun hc => by simp [isReceiverCmd] at hc, fun _ => ?_⟩
    simp only [runCmd, msgPlayerStop, pushMediaPlayerMessage, if_neg hd.1, if_neg hd.2,
      Bind.bind, Except.bind, Except.map]
    exact ⟨_, rfl, rfl⟩
  | playerPause d sid =>
    have hd : d ≠ "" ∧ sid ≠ 0 := by simpa [Cmd.valid] using hv
    refine ⟨fun hc => by simp [isReceiverCmd] at hc, fun _ => ?_⟩
    simp only [runCmd, msgPlayerPause, pushMediaPlayerMessage, if_neg hd.1, if_neg hd.2,
      Bind.bind, Except.bind, Except.map]
    exact ⟨_, rfl, rfl⟩
  | playerSetVolume d sid v mu =>
    have hd : (d ≠ "" ∧ sid ≠ 0) ∧ 0 ≤ v ∧ v ≤ 1 := by
      simpa [Cmd.valid, and_assoc] using hv
    have hrange : ¬(v < 0 ∨ v > 1) := by
      push_neg
      exact ⟨hd.2.1, hd.2.2⟩
    refine ⟨fun hc => by simp [isReceiverCmd] at hc, fun _ => ?_⟩
    simp only [runCmd, msgPlayerSetVolume, pushMediaPlayerMessage, if_neg hd.1.1,
      if_neg hd.1.2, if_neg hrange, Bind.bind, Except.bind, Except.map]
    exact ⟨_, rfl, rfl⟩
  | playerSeek d sid t =>
    have hd : d ≠ "" ∧ sid ≠ 0 := by simpa [Cmd.valid] using hv
    refine ⟨fun hc => by simp [isReceiverCmd] at hc, fun _ => ?_⟩
    simp only [runCmd, msgPlayerSeek, pushMediaPlayerMessage, if_neg hd.1, if_neg hd.2,
      Bind.bind, Except.bind, Except.map]
    exact ⟨_, rfl, rfl⟩

theorem ns_recv_ne_media : (NAMESPACE_RECEIVER == NAMESPACE_MEDIA) = false := by decide

theorem ns_media_ne_recv : (NAMESPACE_MEDIA == NAMESPACE_RECEIVER) = false := by decide

theorem receiverIds_cons_recv (m : CastMessage) (k : Nat) (tr : List (CastMessage × Nat))
    (hns : m.namespace_ = NAMESPACE_RECEIVER) :
    receiverIds ((m, k) :: tr) = k :: receiverIds tr := by
  simp [receiverIds, List.filter_cons, hns]

theorem receiverIds_cons_media (m : CastMessage) (k : Nat) (tr : List (CastMessage × Nat))
    (hns : m.namespace_ = NAMESPACE_MEDIA) :
    receiverIds ((m, k) :: tr) = receiverIds tr := by
  simp [receiverIds, List.filter_cons, hns, ns_media_ne_recv]

theorem mediaIds_cons_recv (m : CastMessage) (k : Nat) (tr : List (CastMessage × Nat))
    (hns : m.namespace_ = NAMESPACE_RECEIVER) :
    mediaIds ((m, k) :: tr) = mediaIds tr := by
  simp [mediaIds, List.filter_cons, hns, ns_recv_ne_media]

theorem mediaIds_cons_media (m : CastMessage) (k : Nat) (tr : List (CastMessage × Nat))
    (hns : m.namespace_ = NAMESPACE_MEDIA) :
    mediaIds ((m, k) :: tr) = k :: mediaIds tr := by
  simp [mediaIds, List.filter_cons, hns]

theorem runCmds_ids (cs : List Cmd) : ∀ s : CCState, (∀ c ∈ cs, c.valid = true) →
    ∃ s2 tr, runCmds cs s = Except.ok (s2, tr)
      ∧ receiverIds tr = List.range' s.receiver_requestId (cs.filter isReceiverCmd).length
      ∧ mediaIds tr = List.range' s.requestId (cs.filter (fun c => !isReceiverCmd c)).length := by
  induction cs with
  | nil =>
    intro s _
    exact ⟨s, [], rfl, by simp [receiverIds], by simp [mediaIds]⟩
  | cons c cs ih =>
    intro s h
    have hv := h c (List.mem_cons_self c cs)
    have htail : ∀ x ∈ cs, x.valid = true := fun x hx => h x (List.mem_cons_of_mem c hx)
    by_cases hr : isReceiverCmd c = true
    · obtain ⟨m, hrun, hns⟩ := (runCmd_spec c s hv).1 hr
      obtain ⟨s2, tr, hrec, hrecv, hmed⟩ :=
        ih { s with receiver_requestId := s.receiver_requestId + 1 } htail
      have hrecv2 : receiverIds tr
          = List.range' (s.receiver_requestId + 1) (cs.filter isReceiverCmd).length := hrecv
      have hmed2 : mediaIds tr
          = List.range' s.requestId (cs.filter (fun c => !isReceiverCmd c)).length := hmed
      refine ⟨s2, (m, s.receiver_requestId) :: tr, ?_, ?_, ?_⟩
      · simp [runCmds, hrun, hrec, Bind.bind, Except.bind]
      · rw [receiverIds_cons_recv m _ tr hns, hrecv2]
        have hlen : ((c :: cs).filter isReceiverCmd).length
            = (cs.filter isReceiverCmd).length + 1 := by
          simp [List.filter_cons, hr]
        rw [hlen, List.range'_succ]
      · rw [mediaIds_cons_recv m _ tr hns, hmed2]
        have hlen : ((c :: cs).filter (fun c => !isReceiverCmd c)).length
            = (cs.filter (fun c => !isReceiverCmd c)).length := by
          simp [List.filter_cons, hr]
        rw [hlen]
    · have hrf : isReceiverCmd c = false := by simpa using hr
      obtain ⟨m, hrun, hns⟩ := (runCmd_spec c s hv).2 hrf
      obtain ⟨s2, tr, hrec, hrecv, hmed⟩ := ih { s with requestId := s.requestId + 1 } htail
      have hrecv2 : receiverIds tr
          = List.range' s.receiver_requestId (cs.filter isReceiverCmd).length := hrecv
      have hmed2 : mediaIds tr
          = List.range' (s.requestId + 1) (cs.filter (fun c => !isReceiverCmd c)).length := hmed
      refine ⟨s2, (m, s.requestId) :: tr, ?_, ?_, ?_⟩
      · simp [runCmds, hrun, hrec, Bind.bind, Except.bind]
      · rw [receiverIds_cons_media m _ tr hns, hrecv2]
        have hlen : ((c :: cs).filter isReceiverCmd).length
            = (cs.filter isReceiverCmd).length := by
          simp [List.filter_cons, hrf]
        rw [hlen]
      · rw [mediaIds_cons_media m _ tr hns, hmed2]
        have hlen : ((c :: cs).filter (fun c => !isReceiverCmd c)).length
            = (cs.filter (fun c => !isReceiverCmd c)).length + 1 := by
          simp [List.filter_cons, hrf]
        rw [hlen, List.range'_succ]

/-- C3: the receiver-scope and media-player-scope request-id counters both
start at 0 and are independent: any interleaving of valid receiver-scope and
media-player-scope commands yields receiver request ids 0..N-1 and media
request ids 0..M-1, in order, where N and M count the commands of each scope. -/
theorem requestIds_independent (ip : String) (cs : List Cmd)
    (h : ∀ c ∈ cs, c.valid = true) :
    ∃ s2 tr, runCmds cs (initState ip) = Except.ok (s2, tr)
      ∧ receiverIds tr = List.range (cs.filter isReceiverCmd).length
      ∧ mediaIds tr = List.range (cs.filter (fun c => !isReceiverCmd c)).length := by
  obtain ⟨s2, tr, h1, h2, h3⟩ := runCmds_ids cs (initState ip) h
  refine ⟨s2, tr, h1, ?_, ?_⟩
  · rw [h2]
    simp [initState, List.range_eq_range']
  · rw [h3]
    simp [initState, List.range_eq_range']

theorem requestIds_independent_witness :
    (∀ c ∈ c3Cmds, c.valid = true)
    ∧ ∃ s2 tr, runCmds c3Cmds (initState "ip") = Except.ok (s2, tr)
      ∧ receiverIds tr = List.range (c3Cmds.filter isReceiverCmd).length
      ∧ mediaIds tr = List.range (c3Cmds.filter (fun c => !isReceiverCmd c)).length :=
  ⟨by decide, requestIds_independent "ip" c3Cmds (by decide)⟩

theorem str_append_right_ne_empty (x y : String) (hy : y.data ≠ []) : x ++ y ≠ "" := by
  intro h
  have hd := congrArg String.data h
  rw [String.data_append] at hd
  have hnil : ("" : String).data = [] := rfl
  rw [hnil] at hd
  exact hy (List.append_eq_nil.mp hd).2

theorem prefixOf_self (l : List Char) : l.isPrefixOf l = true := by
  rw [ List.isPrefixOf_iff_prefix]

theorem fetched_isSome_iff (b : Bool) (m : VlcMeta) (sel : VlcMeta → Option String) :
    (fetchedMusicField b m sel).isSome = true
      ↔ (b = true ∧ m.title.isSome = true ∧ (sel m).isSome = true) := by
  unfold fetchedMusicField
  by_cases hb : b <;> by_cases ht : m.title.isSome <;> simp [hb, ht]

theorem occurs_mfp_block (p : String) (b : Bool) (m : VlcMeta) (t : String)
    (hres : resolveTitle m = some t)
    (h : strOccurs p (musicFieldsPart b m) = true) :
    strOccurs p (metadataBlock b m) = true := by
  simp only [metadataBlock, hres]
  apply strOccurs_append_left
  apply strOccurs_append_left
  exact strOccurs_append_right _ _ _ h

theorem occurs_block_media (p ip : String) (port : Nat) (mime : String) (m : VlcMeta)
    (h : strOccurs p (metadataBlock (strStartsWith "audio" mime) m) = true) :
    strOccurs p (GetMedia ip port mime (some m)) = true := by
  simp only [GetMedia]
  apply strOccurs_append_left
  apply strOccurs_append_left
  apply strOccurs_append_left
  apply strOccurs_append_left
  apply strOccurs_append_left
  apply strOccurs_append_left
  apply strOccurs_append_left
  exact h

/-- C8 (amended): in the LOAD media descriptor, `metadataType` is 3 for audio
MIME types and 0 otherwise; the title resolves as explicit title, then "now
playing", then "elementary-stream now playing"; the metadata block is emitted
exactly when a title resolves; and each music-only field is fetched — and its
key emitted into the descriptor — when and only when the MIME type is audio
AND the *explicit* title metadata is present (a title obtained through the
now-playing fallbacks does not enable the music-only fields). -/
theorem getMedia_metadata_rules (ip : String) (port : Nat) (mime : String) (m : VlcMeta) :
    (metadataBlock (strStartsWith "audio" mime) m = "" ↔ resolveTitle m = none)
    ∧ (∀ t, m.title = some t → resolveTitle m = some t)
    ∧ (m.title = none → ∀ t, m.nowPlaying = some t → resolveTitle m = some t)
    ∧ (m.title = none → m.nowPlaying = none → resolveTitle m = m.esNowPlaying)
    ∧ (∀ t, resolveTitle m = some t →
        metadataBlock (strStartsWith "audio" mime) m
          = "\"metadata\":\x7b \"metadataType\":"
            ++ ((if strStartsWith "audio" mime then "3" else "0")
              ++ (",\"title\":\"" ++ (t ++ ("\""
                ++ (musicFieldsPart (strStartsWith "audio" mime) m
                  ++ (imagesPart m ++ "\x7d,")))))))
    ∧ (∀ p ∈ [(VlcMeta.artist, ",\"artist\":\""), (VlcMeta.album, ",\"album\":\""),
          (VlcMeta.albumArtist, ",\"albumArtist\":\""),
          (VlcMeta.trackNumber, ",\"trackNumber\":\""),
          (VlcMeta.discNumber, ",\"discNumber\":\"")],
        ((fetchedMusicField (strStartsWith "audio" mime) m p.1).isSome = true
            ↔ (strStartsWith "audio" mime = true ∧ m.title.isSome = true
               ∧ (p.1 m).isSome = true))
        ∧ (∀ a, p.1 m = some a → strStartsWith "audio" mime = true → m.title.isSome = true →
            strOccurs p.2 (GetMedia ip port mime (some m)) = true)) := by
  have hexists : ∀ (htt : m.title.isSome = true), ∃ t, resolveTitle m = some t := by
    intro htt
    obtain ⟨t, ht⟩ := Option.isSome_iff_exists.mp htt
    exact ⟨t, by simp [resolveTitle, ht]⟩
  refine ⟨?_, ?_, ?_, ?_, ?_, ?_⟩
  · constructor
    · intro hempty
      by_contra hc
      obtain ⟨t, hres⟩ := Option.ne_none_iff_exists'.mp hc
      simp only [metadataBlock, hres] at hempty
      exact str_append_right_ne_empty _ _ (by decide) hempty
    · intro hres
      simp [metadataBlock, hres]
  · intro t ht
    simp [resolveTitle, ht]
  · intro ht t hnp
    simp [resolveTitle, ht, hnp]
  · intro ht hnp
    simp [resolveTitle, ht, hnp]
  · intro t hres
    simp only [metadataBlock, hres, String.append_assoc]
  · intro p hp
    simp only [List.mem_cons, List.not_mem_nil, or_false] at hp
    rcases hp with rfl | rfl | rfl | rfl | rfl
    · refine ⟨fetched_isSome_iff _ _ _, ?_⟩
      intro a ha hb htt
      obtain ⟨t, hres⟩ := hexists htt
      have ha2 : m.artist = some a := ha
      have hfetch : fetchedMusicField true m VlcMeta.artist = some a := by
        simp [fetchedMusicField, htt, ha2]
      apply occurs_block_media
      apply occurs_mfp_block _ _ _ t hres
      simp only [musicFieldsPart, hb, if_true]
      apply strOccurs_append_left
      apply strOccurs_append_left
      apply strOccurs_append_left
      apply strOccurs_append_left
      simp only [optMusicField, hfetch]
      apply strOccurs_append_left
      apply strOccurs_head
      decide
    · refine ⟨fetched_isSome_iff _ _ _, ?_⟩
      intro a ha hb htt
      obtain ⟨t, hres⟩ := hexists htt
      have ha2 : m.album = some a := ha
      have hfetch : fetchedMusicField true m VlcMeta.album = some a := by
        simp [fetchedMusicField, htt, ha2]
      apply occurs_block_media
      apply occurs_mfp_block _ _ _ t hres
      simp only [musicFieldsPart, hb, if_true]
      apply strOccurs_append_left
      apply strOccurs_append_left
      apply strOccurs_append_left
      apply strOccurs_append_right
      simp only [optMusicField, hfetch]
      apply strOccurs_append_left
      apply strOccurs_head
      decide
    · refine ⟨fetched_isSome_iff _ _ _, ?_⟩
      intro a ha hb htt
      obtain ⟨t, hres⟩ := hexists htt
      have ha2 : m.albumArtist = some a := ha
      have hfetch : fetchedMusicField true m VlcMeta.albumArtist = some a := by
        simp [fetchedMusicField, htt, ha2]
      apply occurs_block_media
      apply occurs_mfp_block _ _ _ t hres
      simp only [musicFieldsPart, hb, if_true]
      apply strOccurs_append_left
      apply strOccurs_append_left
      apply strOccurs_append_right
      simp only [optMusicField, hfetch]
      apply strOccurs_append_left
      apply strOccurs_head
      decide
    · refine ⟨fetched_isSome_iff _ _ _, ?_⟩
      intro a ha hb htt
      obtain ⟨t, hres⟩ := hexists htt
      have ha2 : m.trackNumber = some a := ha
      have hfetch : fetchedMusicField true m VlcMeta.trackNumber = some a := by
        simp [fetchedMusicField, htt, ha2]
      apply occurs_block_media
      apply occurs_mfp_block _ _ _ t hres
      simp only [musicFieldsPart, hb, if_true]
      apply strOccurs_append_left
      apply strOccurs_append_right
      simp only [optMusicField, hfetch]
      apply strOccurs_append_left
      apply strOccurs_head
      decide
    · refine ⟨fetched_isSome_iff _ _ _, ?_⟩
      intro a ha hb htt
      obtain ⟨t, hres⟩ := hexists htt
      have ha2 : m.discNumber = some a := ha
      have hfetch : fetchedMusicField true m VlcMeta.discNumber = some a := by
        simp [fetchedMusicField, htt, ha2]
      apply occurs_block_media
      apply occurs_mfp_block _ _ _ t hres
      simp only [musicFieldsPart, hb, if_true]
      apply strOccurs_append_right
      simp only [optMusicField, hfetch]
      apply strOccurs_append_left
      apply strOccurs_head
      decide

/-- C8 counterexample: with an audio MIME type, an available artist tag and a
title resolved through the "now playing" fallback, the claim as stated demands
the artist field be emitted, but the descriptor contains no "artist" at all. -/
theorem getMedia_fallback_no_music_fields :
    (strStartsWith "audio" "audio/mp3") = true
    ∧ (resolveTitle cex8Meta).isSome = true
    ∧ cex8Meta.artist.isSome = true
    ∧ strOccurs "artist" (GetMedia "127.0.0.1" 8080 "audio/mp3" (some cex8Meta)) = false := by
  decide

/-- Witness for C8: with MIME audio and an explicit title, the artist field is
emitted into the media descriptor. -/
theorem getMedia_metadata_rules_witness :
    strOccurs ",\"artist\":\"" (GetMedia "ip" 80 "audio/mp3" (some m8w)) = true :=
  ((getMedia_metadata_rules "ip" 80 "audio/mp3" m8w).2.2.2.2.2
      (VlcMeta.artist, ",\"artist\":\"") (List.mem_cons_self _ _)).2 "Artist" rfl (by decide)
    (by decide)
